import Mathlib

/-!
# Verification of the process-supervision engine of HZ-HOSTING-BOT

Shallow embedding of `src/utils/deployment_helper.py`: the in-memory
process registry (`running_processes`), the start/stop/restart state
machine, and the status/usage query logic.  OS effects (liveness polls,
process spawning, termination signals, resource sampling) are passed in
as explicit oracle values; persistence updates are recorded in a log so
that frame conditions can be stated.
-/

namespace HZHosting

/-- An OS process handle as the supervisor sees it: `pid` is the OS
process identifier and `alive` is the outcome of `poll()` at the moment
the supervisor queries it (`alive = true` iff `poll() is None`). -/
structure Proc where
  pid : Nat
  alive : Bool
  deriving Repr, DecidableEq

/-- A partial execution-info update as passed to
`update_project_execution_info`: each field is `none` when the
corresponding key is absent from the update dict.  `pid` is doubly
optional because the key may be present with value `None`. -/
structure UpdateData where
  is_running : Option Bool
  pid : Option (Option Nat)
  last_run_time : Option Nat
  status : Option String
  deriving Repr, DecidableEq

/-- The update dict written by `start_project` on spawn success:
`{'is_running': True, 'pid': process.pid, 'last_run_time': datetime.utcnow(), 'status': 'running'}`. -/
def startUpdateData (pid now : Nat) : UpdateData :=
  ⟨some true, some (some pid), some now, some "running"⟩

/-- The update dict written by `stop_project` on successful termination:
`{'is_running': False, 'pid': None, 'status': 'stopped'}` (no `last_run_time` key). -/
def stopUpdateData : UpdateData :=
  ⟨some false, some none, none, some "stopped"⟩

/-- `execution_info` of a project as stored in Persistence. -/
structure ExecutionInfo where
  log_file : String
  last_run_time : Option Nat
  deriving Repr, DecidableEq

/-- Project configuration as fetched from Persistence. -/
structure Project where
  path : String
  run_command : Option String
  name : String
  execution_info : ExecutionInfo
  deriving Repr, DecidableEq

/-- Supervisor state: the `running_processes` dict (modelled as an
association list with unique keys maintained by the operations), the log
of persistence updates issued (newest first), and a ghost history of the
pids of all successfully spawned OS processes, used to state
"exactly one process was spawned" claims. -/
structure SupState where
  running_processes : List (String × Proc)
  persist_log : List (String × UpdateData)
  spawned_pids : List Nat
  deriving Repr, DecidableEq

/-- Dict lookup: `running_processes[project_id]` / `project_id in running_processes`. -/
def mapLookup (m : List (String × Proc)) (k : String) : Option Proc :=
  (m.find? (fun e => e.1 = k)).map (fun e => e.2)

/-- Dict key removal: `running_processes.pop(project_id)` (the value
returned by `pop` is the result of `mapLookup` first). -/
def mapErase (m : List (String × Proc)) (k : String) : List (String × Proc) :=
  m.filter (fun e => e.1 ≠ k)

/-- Dict assignment: `running_processes[project_id] = process`. -/
def mapInsert (m : List (String × Proc)) (k : String) (v : Proc) :
    List (String × Proc) :=
  (k, v) :: mapErase m k

/-- Python's whitespace character class for `str.split()` with no argument. -/
def isSpaceChar (c : Char) : Bool :=
  c = ' ' || c = '\t' || c = '\n' || c = '\r'

/-- Tokenizer worker for `splitWS`: `acc` holds the characters of the
current token in reverse. -/
def splitWSAux : List Char → List Char → List String
  | [], acc => if acc = [] then [] else [String.mk acc.reverse]
  | c :: cs, acc =>
      if isSpaceChar c then
        if acc = [] then splitWSAux cs []
        else String.mk acc.reverse :: splitWSAux cs []
      else splitWSAux cs (c :: acc)

/-- Python `str.split()` with no argument: split on runs of whitespace,
dropping empty tokens (leading and trailing whitespace ignored). -/
def splitWS (s : String) : List String :=
  splitWSAux s.data []

/-- `os.path.join(project_path, ".venv", "bin", "python")`. -/
def venvPython (project : Project) : String :=
  project.path ++ "/.venv/bin/python"

/-- `project.get("run_command", "python main.py")`. -/
def getRunCommand (project : Project) : String :=
  project.run_command.getD "python main.py"

/-- `run_cmd = [venv_python] + run_command[1:]`: the configured command
line is tokenized, its first token dropped, and the isolated runtime's
interpreter prepended. -/
def buildRunCmd (project : Project) : List String :=
  venvPython project :: (splitWS (getRunCommand project)).drop 1

/-- Message literals of `deployment_helper.py`. -/
def alreadyRunningMsg : String := "⚠️ Project is already running."

def envMissingMsg : String :=
  "❌ Virtual environment not found. Please install dependencies first."

def execFailedMsg (e : String) : String := "❌ Execution failed: " ++ e

def startedMsg (pid : Nat) : String :=
  "✅ Process started with PID: " ++ toString pid

def notRunningMsg : String := "⚠️ Project is not running."

def alreadyStoppedMsg : String := "⚠️ Process already stopped."

def stopOkMsg : String := "✅ Process stopped successfully."

def stopFailedMsg (e : String) : String := "❌ Failed to stop process: " ++ e

def projectStoppedMsg : String := "⚠️ Project is stopped."

def usageFailedMsg (e : String) : String := "❌ Could not retrieve usage: " ++ e

/-- Oracles consumed by one `start_project` call: whether
`os.path.exists(venv_python)` holds, the outcome of spawning a given
command line (`Except.error e` models any exception raised while opening
the log file, reading `.env`, or in `subprocess.Popen`, with `e` the
rendered exception text; `Except.ok proc` a successful spawn), and
`datetime.utcnow()`. -/
structure StartEnv where
  venv_exists : Bool
  spawn : List String → Except String Proc
  now : Nat

/-- Body of `start_project` after the already-running guard: venv check,
command construction, spawn attempt, registration and persistence. -/
def startBody (s : SupState) (project_id : String) (project : Project)
    (env : StartEnv) : (Bool × String) × SupState :=
  if env.venv_exists = false then
    ((false, envMissingMsg), s)
  else
    match env.spawn (buildRunCmd project) with
    | Except.error e => ((false, execFailedMsg e), s)
    | Except.ok proc =>
        ((true, startedMsg proc.pid),
         { running_processes := mapInsert s.running_processes project_id proc,
           persist_log := (project_id, startUpdateData proc.pid env.now) :: s.persist_log,
           spawned_pids := s.spawned_pids ++ [proc.pid] })

/-- `start_project(project_id, project)`: refuse when the registry holds
an entry whose process polls alive; otherwise run the start body. -/
def start_project (s : SupState) (project_id : String) (project : Project)
    (env : StartEnv) : (Bool × String) × SupState :=
  match mapLookup s.running_processes project_id with
  | some p =>
      if p.alive then ((false, alreadyRunningMsg), s)
      else startBody s project_id project env
  | none => startBody s project_id project env

/-- Oracle consumed by one `stop_project` call: the combined outcome of
`terminate()` / `wait(timeout=5)` / `kill()` and the persistence update
(`Except.error e` models an exception raised inside the try block, with
`e` the rendered exception text). -/
structure StopEnv where
  terminate : Except String Unit

/-- `stop_project(project_id)`: `NotRunning` when no registry entry
exists; otherwise the entry is popped first, then the already-exited
check, then terminate/wait/kill and the persistence update. -/
def stop_project (s : SupState) (project_id : String) (env : StopEnv) :
    (Bool × String) × SupState :=
  match mapLookup s.running_processes project_id with
  | none => ((false, notRunningMsg), s)
  | some p =>
      let s1 : SupState :=
        { running_processes := mapErase s.running_processes project_id,
          persist_log := s.persist_log,
          spawned_pids := s.spawned_pids }
      if p.alive = false then
        ((false, alreadyStoppedMsg), s1)
      else
        match env.terminate with
        | Except.error e => ((false, stopFailedMsg e), s1)
        | Except.ok _ =>
            ((true, stopOkMsg),
             { s1 with persist_log := (project_id, stopUpdateData) :: s1.persist_log })

/-- `restart_project(project_id, project)`:
`await stop_project(project_id); await asyncio.sleep(1); return await start_project(project_id, project)`.
The stop result is discarded. -/
def restart_project (s : SupState) (project_id : String) (project : Project)
    (senv : StopEnv) (env : StartEnv) : (Bool × String) × SupState :=
  let r1 := stop_project s project_id senv
  start_project r1.2 project_id project env

/-- An event in the execution of `restart_project`, used to state in
which order the phases run and that a settle delay separates them. -/
inductive RestartEv where
  | stopPhase : Bool → String → RestartEv
  | sleep : Nat → RestartEv
  | startPhase : Bool → String → RestartEv
  deriving Repr, DecidableEq

/-- The event trace of `restart_project`: the stop call with its result,
then `asyncio.sleep(1)`, then the start call with its result. -/
def restart_trace (s : SupState) (project_id : String) (project : Project)
    (senv : StopEnv) (env : StartEnv) : List RestartEv :=
  let r1 := stop_project s project_id senv
  let r2 := start_project r1.2 project_id project env
  [RestartEv.stopPhase r1.1.1 r1.1.2, RestartEv.sleep 1,
   RestartEv.startPhase r2.1.1 r2.1.2]

/-- Oracle consumed by `get_project_status` in detailed mode: the
rendered uptime when the psutil introspection succeeds, `none` when it
raises (degraded to "N/A" by the bare `except`). -/
structure StatusEnv where
  uptime : Option String

/-- `project.get('run_command')` as rendered into the detailed status
(Python renders a missing key as `None`). -/
def getRunCommandShown (project : Project) : String :=
  match project.run_command with
  | some c => c
  | none => "None"

/-- `get_project_status(project_id, project, detailed)`: liveness is
re-derived from the registry entry and its poll; non-detailed mode
returns only the indicator string; detailed mode formats PID, uptime and
last-run time, degrading uptime to "N/A" on introspection failure. -/
def get_project_status (s : SupState) (project_id : String) (project : Project)
    (detailed : Bool) (env : StatusEnv) : String :=
  let liveProc : Option Proc :=
    match mapLookup s.running_processes project_id with
    | some p => if p.alive then some p else none
    | none => none
  let status : String :=
    match liveProc with
    | some _ => "🟢 Running"
    | none => "🔴 Stopped"
  let pidStr : String :=
    match liveProc with
    | some p => toString p.pid
    | none => "N/A"
  let uptimeStr : String :=
    match liveProc with
    | some _ =>
        match env.uptime with
        | some u => u
        | none => "N/A"
    | none => "N/A"
  if detailed = false then status
  else
    let lastRunStr : String :=
      match project.execution_info.last_run_time with
      | some t => toString t ++ " UTC"
      | none => "Never"
    "**Project Status: `" ++ project.name ++ "`**\n\n" ++
    "🔹 **Status:** " ++ status ++ "\n" ++
    "🔹 **PID:** `" ++ pidStr ++ "`\n" ++
    "🔹 **Uptime:** `" ++ uptimeStr ++ "`\n" ++
    "🔹 **Last Run:** `" ++ lastRunStr ++ "`\n" ++
    "🔹 **Run Command:** `" ++ getRunCommandShown project ++ "`"

/-- Oracle consumed by `get_project_usage`: the outcome of the psutil
sampling block (`Except.ok (cpu, ram)` with the rendered CPU percentage
and RAM figure — float formatting is abstracted to the rendered strings —
or `Except.error e` when any psutil call raises, e.g. because the process
exited between the poll and the sample). -/
structure UsageEnv where
  sample : Except String (String × String)

/-- `get_project_usage(project_id)`: refusal strings when no entry
exists or the entry's process already exited; otherwise the psutil
sample, with every introspection exception caught and rendered. -/
def get_project_usage (s : SupState) (project_id : String) (env : UsageEnv) :
    String :=
  match mapLookup s.running_processes project_id with
  | none => notRunningMsg
  | some p =>
      if p.alive = false then projectStoppedMsg
      else
        match env.sample with
        | Except.error e => usageFailedMsg e
        | Except.ok (cpu, ram) =>
            "**Resource Usage (PID `" ++ toString p.pid ++ "`)**\n\n" ++
            "📊 **CPU:** " ++ cpu ++ "%\n" ++
            "🧠 **RAM:** " ++ ram ++ " MB"

/-- A Python return value of the public operations: either a
`(bool, str)` tuple or a bare `str`.  Python is dynamically typed, so the
union of the shapes actually returned is the honest result type of the
surface. -/
inductive PyRet where
  | tup : Bool → String → PyRet
  | str : String → PyRet
  deriving Repr, DecidableEq

/-- The literal Python value returned by `start_project`. -/
def start_project_ret (s : SupState) (project_id : String) (project : Project)
    (env : StartEnv) : PyRet :=
  PyRet.tup (start_project s project_id project env).1.1
    (start_project s project_id project env).1.2

/-- The literal Python value returned by `stop_project`. -/
def stop_project_ret (s : SupState) (project_id : String) (env : StopEnv) :
    PyRet :=
  PyRet.tup (stop_project s project_id env).1.1 (stop_project s project_id env).1.2

/-- The literal Python value returned by `restart_project`. -/
def restart_project_ret (s : SupState) (project_id : String) (project : Project)
    (senv : StopEnv) (env : StartEnv) : PyRet :=
  PyRet.tup (restart_project s project_id project senv env).1.1
    (restart_project s project_id project senv env).1.2

/-- The literal Python value returned by `get_project_status`. -/
def get_project_status_ret (s : SupState) (project_id : String)
    (project : Project) (detailed : Bool) (env : StatusEnv) : PyRet :=
  PyRet.str (get_project_status s project_id project detailed env)

/-- The literal Python value returned by `get_project_usage`. -/
def get_project_usage_ret (s : SupState) (project_id : String) (env : UsageEnv) :
    PyRet :=
  PyRet.str (get_project_usage s project_id env)

/-! ## Concrete fixtures for witnesses and counterexamples -/

/-- A live process handle (poll returns `None`). -/
def procA : Proc := ⟨7, true⟩

/-- A handle whose process has already exited (poll returns an exit code). -/
def deadProc : Proc := ⟨7, false⟩

/-- A sample project configuration. -/
def proj0 : Project :=
  ⟨"/srv/app", some "python main.py", "app", ⟨"/srv/app/app.log", none⟩⟩

/-- Supervisor state with an empty registry. -/
def emptyState : SupState := ⟨[], [], []⟩

/-- Supervisor state whose registry holds a live entry for "p". -/
def liveState : SupState := ⟨[("p", procA)], [], []⟩

/-- Supervisor state whose registry holds a stale (exited) entry for "p",
with non-trivial persisted execution info and spawn history. -/
def staleState : SupState :=
  ⟨[("p", deadProc)], [("p", startUpdateData 7 1)], [7]⟩

/-- Start oracles: venv present, spawn succeeds with pid 9, clock at 5. -/
def envOk : StartEnv := ⟨true, fun _ => Except.ok ⟨9, true⟩, 5⟩

/-- Start oracles: venv marker absent. -/
def envNoVenv : StartEnv := ⟨false, fun _ => Except.ok ⟨9, true⟩, 5⟩

/-- Start oracles: venv present but the spawn raises. -/
def envSpawnFail : StartEnv :=
  ⟨true, fun _ => Except.error "No such file or directory", 5⟩

/-- Stop oracle: terminate/wait succeed. -/
def stopEnvOk : StopEnv := ⟨Except.ok ()⟩

/-- Stop oracle: terminate raises. -/
def stopEnvFail : StopEnv := ⟨Except.error "boom"⟩

/-- Usage oracle: the psutil sampling raises. -/
def usageEnvFail : UsageEnv := ⟨Except.error "process no longer exists"⟩

/-! ## Registry map lemmas -/

theorem mapLookup_mapErase_self (m : List (String × Proc)) (k : String) :
    mapLookup (mapErase m k) k = none := by
  induction m with
  | nil => rfl
  | cons e rest ih =>
      by_cases h : e.1 = k
      · simpa [mapErase, List.filter_cons, h] using ih
      · simp [mapErase, mapLookup, List.filter_cons, List.find?_cons, h]

theorem mapLookup_mapInsert_self (m : List (String × Proc)) (k : String)
    (v : Proc) : mapLookup (mapInsert m k v) k = some v := by
  simp [mapInsert, mapLookup, List.find?_cons]

/-! ## Claim theorems -/

/-- C7: `start_project` whitespace-tokenizes the configured launch
command, replaces its first token by the project's isolated runtime
interpreter (`<path>/.venv/bin/python`), and passes the remaining tokens
through verbatim. -/
theorem run_command_first_token_replaced (project : Project) (t : String)
    (ts : List String)
    (h : splitWS (getRunCommand project) = t :: ts) :
    buildRunCmd project = venvPython project :: ts := by
  simp [buildRunCmd, h]

theorem run_command_first_token_replaced_witness :
    splitWS (getRunCommand proj0) = "python" :: ["main.py"] ∧
    buildRunCmd proj0 = venvPython proj0 :: ["main.py"] ∧
    buildRunCmd proj0 = ["/srv/app/.venv/bin/python", "main.py"] :=
  ⟨by decide,
   run_command_first_token_replaced proj0 "python" ["main.py"] (by decide),
   by decide⟩

/-- C9: whenever the registry holds an entry for `project_id`,
`stop_project` removes it in every outcome — the already-exited path,
successful termination, and the path where sending the termination
signal raises and stop reports failure — and never rolls the removal
back. -/
theorem stop_removes_entry_in_every_outcome (s : SupState)
    (project_id : String) (env : StopEnv) (p : Proc)
    (hp : mapLookup s.running_processes project_id = some p) :
    (stop_project s project_id env).2.running_processes =
      mapErase s.running_processes project_id ∧
    mapLookup (stop_project s project_id env).2.running_processes
      project_id = none := by
  have hrp : (stop_project s project_id env).2.running_processes =
      mapErase s.running_processes project_id := by
    cases ha : p.alive <;> cases ht : env.terminate <;>
      simp [stop_project, hp, ha, ht]
  exact ⟨hrp, by rw [hrp]; exact mapLookup_mapErase_self _ _⟩

theorem stop_removes_entry_in_every_outcome_witness :
    mapLookup liveState.running_processes "p" = some procA ∧
    mapLookup (stop_project liveState "p" stopEnvFail).2.running_processes
      "p" = none :=
  ⟨by decide,
   (stop_removes_entry_in_every_outcome liveState "p" stopEnvFail procA
      (by decide)).2⟩

/-- C10: on the already-exited path `stop_project` removes the registry
entry but issues no persistence update: the persistence log after the
call is exactly the one before, so the stored execution info keeps its
previous values. -/
theorem stop_already_exited_no_persist_update (s : SupState)
    (project_id : String) (env : StopEnv) (p : Proc)
    (hp : mapLookup s.running_processes project_id = some p)
    (hd : p.alive = false) :
    stop_project s project_id env =
      ((false, alreadyStoppedMsg),
       ⟨mapErase s.running_processes project_id, s.persist_log,
        s.spawned_pids⟩) := by
  simp [stop_project, hp, hd]

theorem stop_already_exited_no_persist_update_witness :
    mapLookup staleState.running_processes "p" = some deadProc ∧
    deadProc.alive = false ∧
    stop_project staleState "p" stopEnvOk =
      ((false, alreadyStoppedMsg),
       ⟨[], [("p", startUpdateData 7 1)], [7]⟩) :=
  ⟨by decide, by decide,
   stop_already_exited_no_persist_update staleState "p" stopEnvOk deadProc
     (by decide) (by decide)⟩

/-- C8: `get_project_usage` refuses with the not-running message when no
registry entry exists, and with the stopped message when the entry's
process already exited (both render the spec's NotRunning outcome: no
live registry entry); when the entry polls alive and the psutil sampling
raises — e.g. the process exits between the poll and the sample — the
exception is caught and rendered as the SampleUnavailable message.  The
embedding is a total function: every path returns a string, never a
crash. -/
theorem usage_refusal_and_sample_failure (s : SupState)
    (project_id : String) (env : UsageEnv) :
    (mapLookup s.running_processes project_id = none →
      get_project_usage s project_id env = notRunningMsg) ∧
    (∀ p, mapLookup s.running_processes project_id = some p →
      p.alive = false →
      get_project_usage s project_id env = projectStoppedMsg) ∧
    (∀ p e, mapLookup s.running_processes project_id = some p →
      p.alive = true → env.sample = Except.error e →
      get_project_usage s project_id env = usageFailedMsg e) := by
  refine ⟨fun h => by simp [get_project_usage, h],
    fun p hp hd => by simp [get_project_usage, hp, hd],
    fun p e hp ha hs => by simp [get_project_usage, hp, ha, hs]⟩

theorem usage_refusal_and_sample_failure_witness :
    get_project_usage emptyState "p" usageEnvFail = notRunningMsg ∧
    get_project_usage staleState "p" usageEnvFail = projectStoppedMsg ∧
    get_project_usage liveState "p" usageEnvFail =
      usageFailedMsg "process no longer exists" :=
  ⟨(usage_refusal_and_sample_failure emptyState "p" usageEnvFail).1
     (by decide),
   (usage_refusal_and_sample_failure staleState "p" usageEnvFail).2.1
     deadProc (by decide) (by decide),
   (usage_refusal_and_sample_failure liveState "p" usageEnvFail).2.2
     procA "process no longer exists" (by decide) (by decide) rfl⟩

/-- C3: `stop_project` with no registry entry yields the NotRunning
refusal with state unchanged; on an entry whose process already exited
it removes the stale entry and reports the AlreadyStopped outcome, which
is distinguishable from the "we stopped it" success (different flag and
message) and from the NotRunning refusal, and which — unlike a hard
error — leaves the state changed (the removal happened). -/
theorem stop_not_running_and_already_stopped (s : SupState)
    (project_id : String) (env : StopEnv) :
    (mapLookup s.running_processes project_id = none →
      stop_project s project_id env = ((false, notRunningMsg), s)) ∧
    (∀ p, mapLookup s.running_processes project_id = some p →
      p.alive = false →
      stop_project s project_id env =
        ((false, alreadyStoppedMsg),
         ⟨mapErase s.running_processes project_id, s.persist_log,
          s.spawned_pids⟩) ∧
      mapLookup (stop_project s project_id env).2.running_processes
        project_id = none) ∧
    alreadyStoppedMsg ≠ stopOkMsg ∧ alreadyStoppedMsg ≠ notRunningMsg := by
  refine ⟨fun h => by simp [stop_project, h], fun p hp hd => ?_,
    by decide, by decide⟩
  have he : stop_project s project_id env =
      ((false, alreadyStoppedMsg),
       ⟨mapErase s.running_processes project_id, s.persist_log,
        s.spawned_pids⟩) := by
    simp [stop_project, hp, hd]
  exact ⟨he, by rw [he]; exact mapLookup_mapErase_self _ _⟩

theorem stop_not_running_and_already_stopped_witness :
    stop_project emptyState "p" stopEnvOk = ((false, notRunningMsg), emptyState) ∧
    stop_project staleState "p" stopEnvOk =
      ((false, alreadyStoppedMsg),
       ⟨[], [("p", startUpdateData 7 1)], [7]⟩) :=
  ⟨(stop_not_running_and_already_stopped emptyState "p" stopEnvOk).1
     (by decide),
   ((stop_not_running_and_already_stopped staleState "p" stopEnvOk).2.1
      deadProc (by decide) (by decide)).1⟩

/-- C5 counterexample: in a state whose registry holds a live entry for
"p" and whose isolated runtime marker is absent, `start_project`
returns the AlreadyRunning refusal and not the EnvironmentMissing one:
the already-running guard precedes the environment check, so the claim
as stated (every call with the marker absent yields EnvironmentMissing)
fails. -/
theorem start_env_missing_cex :
    envNoVenv.venv_exists = false ∧
    start_project liveState "p" proj0 envNoVenv =
      ((false, alreadyRunningMsg), liveState) ∧
    (start_project liveState "p" proj0 envNoVenv).1.2 ≠ envMissingMsg :=
  ⟨rfl, by decide, by decide⟩

/-- C5 amended: for every project with no live registry entry (no entry
at all, or a stale exited one), when the isolated runtime marker is
absent `start_project` returns EnvironmentMissing and the state —
registry, persistence log and spawn history — is exactly unchanged. -/
theorem start_env_missing_frame (s : SupState) (project_id : String)
    (project : Project) (env : StartEnv)
    (hnl : mapLookup s.running_processes project_id = none ∨
      ∃ q, mapLookup s.running_processes project_id = some q ∧
        q.alive = false)
    (hv : env.venv_exists = false) :
    start_project s project_id project env = ((false, envMissingMsg), s) := by
  rcases hnl with h | ⟨q, hq, hd⟩
  · simp [start_project, startBody, h, hv]
  · simp [start_project, startBody, hq, hd, hv]

theorem start_env_missing_frame_witness :
    start_project staleState "p" proj0 envNoVenv =
      ((false, envMissingMsg), staleState) :=
  start_env_missing_frame staleState "p" proj0 envNoVenv
    (Or.inr ⟨deadProc, by decide, by decide⟩) rfl

/-- C1: at most one live registered process per project: when the
registry holds an entry whose process polls alive, start refuses with
AlreadyRunning and changes nothing (no spawn); a merely-present but
exited entry does not trigger the refusal (the decision is the OS
liveness check, not map membership alone); and after a successful start,
an immediately following start — under any oracles — refuses with
AlreadyRunning, leaves the state unchanged, and exactly one pid was
added to the spawn history across the two calls. -/
theorem start_at_most_one_live (s : SupState) (project_id : String)
    (project : Project) (env : StartEnv) :
    (∀ p, mapLookup s.running_processes project_id = some p →
      p.alive = true →
      start_project s project_id project env =
        ((false, alreadyRunningMsg), s)) ∧
    (∀ p, mapLookup s.running_processes project_id = some p →
      p.alive = false →
      start_project s project_id project env =
        startBody s project_id project env) ∧
    (∀ proc,
      (mapLookup s.running_processes project_id = none ∨
        ∃ q, mapLookup s.running_processes project_id = some q ∧
          q.alive = false) →
      env.venv_exists = true →
      env.spawn (buildRunCmd project) = Except.ok proc →
      proc.alive = true →
      ∀ env2 : StartEnv,
        (start_project s project_id project env).1 =
          (true, startedMsg proc.pid) ∧
        start_project (start_project s project_id project env).2 project_id
            project env2 =
          ((false, alreadyRunningMsg),
           (start_project s project_id project env).2) ∧
        (start_project s project_id project env).2.spawned_pids =
          s.spawned_pids ++ [proc.pid] ∧
        (start_project (start_project s project_id project env).2 project_id
            project env2).2.spawned_pids =
          s.spawned_pids ++ [proc.pid]) := by
  refine ⟨fun p hp ha => by simp [start_project, hp, ha],
    fun p hp hd => by simp [start_project, hp, hd], ?_⟩
  intro proc hnl hv hs ha env2
  have h1 : start_project s project_id project env =
      ((true, startedMsg proc.pid),
       ⟨mapInsert s.running_processes project_id proc,
        (project_id, startUpdateData proc.pid env.now) :: s.persist_log,
        s.spawned_pids ++ [proc.pid]⟩) := by
    rcases hnl with h | ⟨q, hq, hd⟩
    · simp [start_project, startBody, h, hv, hs]
    · simp [start_project, startBody, hq, hd, hv, hs]
  rw [h1]
  exact ⟨rfl, by simp [start_project, mapLookup_mapInsert_self, ha], rfl,
    by simp [start_project, mapLookup_mapInsert_self, ha]⟩

theorem start_at_most_one_live_witness :
    (start_project emptyState "p" proj0 envOk).1 = (true, startedMsg 9) ∧
    start_project (start_project emptyState "p" proj0 envOk).2 "p" proj0
        envSpawnFail =
      ((false, alreadyRunningMsg),
       (start_project emptyState "p" proj0 envOk).2) ∧
    (start_project (start_project emptyState "p" proj0 envOk).2 "p" proj0
        envSpawnFail).2.spawned_pids = [9] := by
  have h := (start_at_most_one_live emptyState "p" proj0 envOk).2.2
    ⟨9, true⟩ (Or.inl (by decide)) rfl rfl rfl envSpawnFail
  exact ⟨h.1, h.2.1, h.2.2.2⟩

/-- C4: with no live registry entry and the runtime marker present: on
spawn success, start registers the spawned handle in the registry,
persists {is_running: true, pid, last_run_time: now, status: "running"},
and returns the success flag carrying the child's PID; on spawn failure,
start changes nothing and returns the failure flag carrying the
underlying OS error text. -/
theorem start_spawn_success_and_failure (s : SupState)
    (project_id : String) (project : Project) (env : StartEnv)
    (hnl : mapLookup s.running_processes project_id = none ∨
      ∃ q, mapLookup s.running_processes project_id = some q ∧
        q.alive = false)
    (hv : env.venv_exists = true) :
    (∀ proc, env.spawn (buildRunCmd project) = Except.ok proc →
      start_project s project_id project env =
        ((true, startedMsg proc.pid),
         ⟨mapInsert s.running_processes project_id proc,
          (project_id, startUpdateData proc.pid env.now) :: s.persist_log,
          s.spawned_pids ++ [proc.pid]⟩) ∧
      mapLookup (start_project s project_id project env).2.running_processes
        project_id = some proc) ∧
    (∀ e, env.spawn (buildRunCmd project) = Except.error e →
      start_project s project_id project env =
        ((false, execFailedMsg e), s)) := by
  constructor
  · intro proc hs
    have h1 : start_project s project_id project env =
        ((true, startedMsg proc.pid),
         ⟨mapInsert s.running_processes project_id proc,
          (project_id, startUpdateData proc.pid env.now) :: s.persist_log,
          s.spawned_pids ++ [proc.pid]⟩) := by
      rcases hnl with h | ⟨q, hq, hd⟩
      · simp [start_project, startBody, h, hv, hs]
      · simp [start_project, startBody, hq, hd, hv, hs]
    exact ⟨h1, by rw [h1]; exact mapLookup_mapInsert_self _ _ _⟩
  · intro e hs
    rcases hnl with h | ⟨q, hq, hd⟩
    · simp [start_project, startBody, h, hv, hs]
    · simp [start_project, startBody, hq, hd, hv, hs]

theorem start_spawn_success_and_failure_witness :
    start_project emptyState "p" proj0 envOk =
      ((true, startedMsg 9),
       ⟨[("p", ⟨9, true⟩)], [("p", startUpdateData 9 5)], [9]⟩) ∧
    start_project emptyState "p" proj0 envSpawnFail =
      ((false, execFailedMsg "No such file or directory"), emptyState) := by
  have h := start_spawn_success_and_failure emptyState "p" proj0 envOk
    (Or.inl (by decide)) rfl
  have h2 := start_spawn_success_and_failure emptyState "p" proj0
    envSpawnFail (Or.inl (by decide)) rfl
  exact ⟨(h.1 ⟨9, true⟩ rfl).1, h2.2 "No such file or directory" rfl⟩

/-- C2 counterexample: with a live entry for "p" and a terminate oracle
that raises, stop reports the hard failure message, yet restart proceeds
to the start phase anyway: restart's result is the start success and a
new process (pid 9) is spawned and registered.  The claim that a hard
stop error aborts restart before start is attempted is therefore
false. -/
theorem restart_hard_stop_error_cex :
    (stop_project liveState "p" stopEnvFail).1 =
      (false, stopFailedMsg "boom") ∧
    restart_project liveState "p" proj0 stopEnvFail envOk =
      ((true, startedMsg 9),
       ⟨[("p", ⟨9, true⟩)], [("p", startUpdateData 9 5)], [9]⟩) :=
  ⟨by decide, by decide⟩

/-- C2 amended: restart is unconditionally stop, then a settle delay of
1 time unit, then start on the post-stop state: the stop result is
discarded, so the benign NotRunning/AlreadyStopped outcomes and hard
stop errors alike are ignored and restart never aborts before start.
In particular, when terminating a live process raises, stop reports the
hard failure and the start phase still runs, on the registry with the
entry already removed. -/
theorem restart_stop_sleep_start_unconditionally (s : SupState)
    (project_id : String) (project : Project) (senv : StopEnv)
    (env : StartEnv) :
    restart_trace s project_id project senv env =
      [RestartEv.stopPhase (stop_project s project_id senv).1.1
         (stop_project s project_id senv).1.2,
       RestartEv.sleep 1,
       RestartEv.startPhase
         (start_project (stop_project s project_id senv).2 project_id
            project env).1.1
         (start_project (stop_project s project_id senv).2 project_id
            project env).1.2] ∧
    restart_project s project_id project senv env =
      start_project (stop_project s project_id senv).2 project_id project
        env ∧
    (∀ p e, mapLookup s.running_processes project_id = some p →
      p.alive = true → senv.terminate = Except.error e →
      (stop_project s project_id senv).1 = (false, stopFailedMsg e) ∧
      (stop_project s project_id senv).2.running_processes =
        mapErase s.running_processes project_id) := by
  refine ⟨rfl, rfl, fun p e hp ha ht => ?_⟩
  constructor <;> simp [stop_project, hp, ha, ht]

theorem restart_stop_sleep_start_unconditionally_witness :
    restart_trace liveState "p" proj0 stopEnvFail envOk =
      [RestartEv.stopPhase false (stopFailedMsg "boom"), RestartEv.sleep 1,
       RestartEv.startPhase true (startedMsg 9)] ∧
    (stop_project liveState "p" stopEnvFail).1 =
      (false, stopFailedMsg "boom") := by
  have h := restart_stop_sleep_start_unconditionally liveState "p" proj0
    stopEnvFail envOk
  exact ⟨by decide, (h.2.2 procA "boom" (by decide) (by decide) rfl).1⟩

/-- C6 counterexample: `get_project_usage` returns a bare string — at
this concrete input the not-running refusal — and not a
(success-flag, message) pair, so the claim that every public operation
returns an explicit boolean success indicator paired with a message is
false (the same holds for `get_project_status`). -/
theorem usage_returns_bare_string_cex :
    get_project_usage_ret emptyState "p" usageEnvFail =
      PyRet.str notRunningMsg ∧
    (¬ ∃ b m, get_project_usage_ret emptyState "p" usageEnvFail =
      PyRet.tup b m) := by
  refine ⟨rfl, ?_⟩
  rintro ⟨b, m, h⟩
  have h0 : get_project_usage_ret emptyState "p" usageEnvFail =
      PyRet.str notRunningMsg := rfl
  rw [h0] at h
  exact PyRet.noConfusion h

/-- Result shapes of `startBody`: missing venv refusal, spawn-failure
text, or the started message with the child's pid. -/
theorem startBody_result (s : SupState) (project_id : String)
    (project : Project) (env : StartEnv) :
    (startBody s project_id project env).1 = (false, envMissingMsg) ∨
    (∃ e, (startBody s project_id project env).1 =
      (false, execFailedMsg e)) ∨
    (∃ p, (startBody s project_id project env).1 =
      (true, startedMsg p)) := by
  by_cases hv : env.venv_exists = false
  · left; simp [startBody, hv]
  · cases hs : env.spawn (buildRunCmd project) with
    | error e => exact Or.inr (Or.inl ⟨e, by simp [startBody, hv, hs]⟩)
    | ok proc =>
        exact Or.inr (Or.inr ⟨proc.pid, by simp [startBody, hv, hs]⟩)

/-- `start_project` either refuses as already running or behaves as its
body. -/
theorem start_project_result_cases (s : SupState) (project_id : String)
    (project : Project) (env : StartEnv) :
    (start_project s project_id project env).1 =
      (false, alreadyRunningMsg) ∨
    (start_project s project_id project env).1 =
      (startBody s project_id project env).1 := by
  unfold start_project
  cases h : mapLookup s.running_processes project_id with
  | none => right; rfl
  | some p =>
      by_cases ha : p.alive
      · left; simp [ha]
      · right; simp [ha]

/-- The four result shapes of `stop_project`. -/
theorem stop_project_result_cases (s : SupState) (project_id : String)
    (env : StopEnv) :
    (stop_project s project_id env).1 = (false, notRunningMsg) ∨
    (stop_project s project_id env).1 = (false, alreadyStoppedMsg) ∨
    (∃ e, (stop_project s project_id env).1 = (false, stopFailedMsg e)) ∨
    (stop_project s project_id env).1 = (true, stopOkMsg) := by
  unfold stop_project
  cases h : mapLookup s.running_processes project_id with
  | none => left; rfl
  | some p =>
      by_cases ha : p.alive = false
      · exact Or.inr (Or.inl (by simp [ha]))
      · cases ht : env.terminate with
        | error e =>
            exact Or.inr (Or.inr (Or.inl ⟨e, by simp [ha, ht]⟩))
        | ok u => exact Or.inr (Or.inr (Or.inr (by simp [ha, ht])))

/-- C6 amended: start, stop and restart each return an explicit
(success-flag, message) pair — enumerated below over every path of the
embedding, which is a total function (no uncaught exception) — while
status and usage return a bare human-readable string with no separate
boolean flag. -/
theorem ops_surface_flag_and_message (s : SupState) (project_id : String)
    (project : Project) (env : StartEnv) (senv : StopEnv)
    (stenv : StatusEnv) (uenv : UsageEnv) (detailed : Bool) :
    (start_project_ret s project_id project env =
       PyRet.tup false alreadyRunningMsg ∨
     start_project_ret s project_id project env =
       PyRet.tup false envMissingMsg ∨
     (∃ e, start_project_ret s project_id project env =
       PyRet.tup false (execFailedMsg e)) ∨
     (∃ p, start_project_ret s project_id project env =
       PyRet.tup true (startedMsg p))) ∧
    (stop_project_ret s project_id senv = PyRet.tup false notRunningMsg ∨
     stop_project_ret s project_id senv =
       PyRet.tup false alreadyStoppedMsg ∨
     (∃ e, stop_project_ret s project_id senv =
       PyRet.tup false (stopFailedMsg e)) ∨
     stop_project_ret s project_id senv = PyRet.tup true stopOkMsg) ∧
    (∃ b m, restart_project_ret s project_id project senv env =
      PyRet.tup b m) ∧
    (∃ t, get_project_status_ret s project_id project detailed stenv =
      PyRet.str t) ∧
    (∃ t, get_project_usage_ret s project_id uenv = PyRet.str t) := by
  refine ⟨?_, ?_, ⟨_, _, rfl⟩, ⟨_, rfl⟩, ⟨_, rfl⟩⟩
  · rcases start_project_result_cases s project_id project env with h | h
    · exact Or.inl (by simp [start_project_ret, h])
    · rcases startBody_result s project_id project env with
        h2 | ⟨e, h2⟩ | ⟨p, h2⟩
      · exact Or.inr (Or.inl (by simp [start_project_ret, h, h2]))
      · exact Or.inr (Or.inr (Or.inl
          ⟨e, by simp [start_project_ret, h, h2]⟩))
      · exact Or.inr (Or.inr (Or.inr
          ⟨p, by simp [start_project_ret, h, h2]⟩))
  · rcases stop_project_result_cases s project_id senv with
      h | h | ⟨e, h⟩ | h
    · exact Or.inl (by simp [stop_project_ret, h])
    · exact Or.inr (Or.inl (by simp [stop_project_ret, h]))
    · exact Or.inr (Or.inr (Or.inl ⟨e, by simp [stop_project_ret, h]⟩))
    · exact Or.inr (Or.inr (Or.inr (by simp [stop_project_ret, h])))

end HZHosting
